import Mathlib

/-!
Verification of the rmqtt broker kernel claims against a shallow Lean
embedding of the source.  Each section embeds one component:

* `AuthHttp` — the HTTP auth/ACL plugin (`rmqtt-plugins/rmqtt-auth-http/src/lib.rs`):
  the per-session ACL cache, `response_result`, `auth`/`acl` outcome mapping and
  the hook handler branches.
* `SessionStorage` — session expiry computation and the rebuild expiry check
  (`rmqtt-plugins/rmqtt-session-storage/src/lib.rs`).
* `PluginMgr` — the plugin manager lifecycle (`rmqtt/src/plugin.rs`).
* `AuthJwt` — the JWT auth plugin handler (`rmqtt-plugins/rmqtt-auth-jwt/src/lib.rs`).
* `Grpc` — the cluster message envelope codec (`rmqtt/src/grpc.rs`).
-/

namespace AuthHttp

/-- The `Permission` from rmqtt-auth-http lib.rs lines 58-63. -/
inductive Permission where
  | Allow (superuser : Bool)
  | Deny
  | Ignore
deriving DecidableEq, Repr

/-- The `impl TryFrom<(&str, Superuser)> for Permission` (lib.rs 65-79); `Err` is `none`. -/
def Permission.tryFromStr (s : String) (superuser : Bool) : Option Permission :=
  if s = "allow" then some (.Allow superuser)
  else if s = "deny" then some .Deny
  else if s = "ignore" then some .Ignore
  else none

/-- The `Permission::from` (lib.rs 81-91): any unrecognized string falls through to
`Permission::Allow(superuser)`. -/
def Permission.fromStr (s : String) (superuser : Bool) : Permission :=
  if s = "allow" then .Allow superuser
  else if s = "deny" then .Deny
  else if s = "ignore" then .Ignore
  else .Allow superuser

/-! ### The per-session ACL cache

`type Caches = Arc<DashMap<Id, BTreeMap<TopicName, (Permission, TimestampMillis)>>>`
(lib.rs 112).  Modelled as an association list keyed by session `Id`, each value an
association list keyed by topic name.  `TimestampMillis` is `i64`, modelled as `Int`. -/

/-- Association-list lookup (first match), the map-read primitive of the model. -/
def lookupA {κ α : Type} [DecidableEq κ] : List (κ × α) → κ → Option α
  | [], _ => none
  | (k, v) :: rest, key => if k = key then some v else lookupA rest key

/-- Association-list insert-or-replace, the map-write primitive of the model
(both `DashMap::insert`-like writes and `BTreeMap::insert` replace). -/
def insertA {κ α : Type} [DecidableEq κ] : List (κ × α) → κ → α → List (κ × α)
  | [], key, v => [(key, v)]
  | (k, w) :: rest, key, v =>
    if k = key then (key, v) :: rest else (k, w) :: insertA rest key v

/-- Association-list key removal (`DashMap::remove`). -/
def removeA {κ α : Type} [DecidableEq κ] (l : List (κ × α)) (key : κ) : List (κ × α) :=
  l.filter (fun kv => kv.1 ≠ key)

/-- The ACL cache: session id → (topic → (permission, expiry millis)). -/
def Caches (Id Topic : Type) : Type := List (Id × List (Topic × (Permission × Int)))

variable {Id Topic : Type} [DecidableEq Id] [DecidableEq Topic]

/-- The `AuthHandler::cache_set` (lib.rs 509-512):
`self.caches.entry(id).or_default().insert(topic, (perm, expire))`. -/
def cache_set (caches : Caches Id Topic) (id : Id) (topic : Topic)
    (perm : Permission) (expire : Int) : Caches Id Topic :=
  insertA caches id (insertA ((lookupA caches id).getD []) topic (perm, expire))

/-- The `AuthHandler::cache_get` (lib.rs 514-517):
`self.caches.get(id).and_then(|c| c.get(topic).map(..))` — no expiry check here. -/
def cache_get (caches : Caches Id Topic) (id : Id) (topic : Topic) :
    Option (Permission × Int) :=
  (lookupA caches id).bind fun c => lookupA c topic

/-- The `AuthHandler::cache_remove` (lib.rs 519-522): `self.caches.remove(id)`. -/
def cache_remove (caches : Caches Id Topic) (id : Id) : Caches Id Topic :=
  removeA caches id

/-- The expiry test the publish-ACL hook applies to a cache entry (lib.rs 608-616):
the cached verdict is used iff `expire < 0 || timestamp_millis() < expire`;
otherwise the entry is treated as a miss (it is *not* removed). -/
def cacheValidGet (caches : Caches Id Topic) (id : Id) (topic : Topic) (now : Int) :
    Option Permission :=
  match cache_get caches id topic with
  | some (perm, expire) => if expire < 0 ∨ now < expire then some perm else none
  | none => none

/-! ### HTTP response interpretation (`AuthHandler::response_result`, lib.rs 241-293) -/

/-- Minimal model of `serde_json::Value`, covering the accessors the plugin uses
(`as_object`/field lookup, `as_str`, `as_bool`, `as_u64`, `as_array`). -/
inductive Json where
  | obj (fields : List (String × Json))
  | str (s : String)
  | jbool (b : Bool)
  | num (n : Int)
  | arr (xs : List Json)
  | null

def Json.as_str : Json → Option String
  | .str s => some s
  | _ => none

def Json.as_bool : Json → Option Bool
  | .jbool b => some b
  | _ => none

def Json.as_u64 : Json → Option Nat
  | .num n => if 0 ≤ n then some n.toNat else none
  | _ => none

def Json.as_array : Json → Option (List Json)
  | .arr xs => some xs
  | _ => none

/-- The `obj.get(name)` on a JSON object's field map. -/
def Json.objGet (fields : List (String × Json)) (key : String) : Option Json :=
  lookupA fields key

/-- The `ResponseResult` (lib.rs 42-56).  `cacheable : Cacheable = Option<i64>`;
`expire_at` is `Option<Duration>` built with `Duration::from_secs`, modelled in
seconds; `acl_data` is the raw JSON `acl` field. -/
structure ResponseResult where
  permission : Permission
  superuser : Bool
  cacheable : Option Int
  expire_at : Option Nat
  acl_data : Option Json

/-- The `ResponseResult::new` (lib.rs 52-55). -/
def ResponseResult.mk' (permission : Permission) (superuser : Bool)
    (cacheable : Option Int) : ResponseResult :=
  ⟨permission, superuser, cacheable, none, none⟩

/-- The body of a successful HTTP response as `response_result` observes it:
either the content type is `application/json` and the body parses as JSON
(`jsonBody`), or it is JSON content that fails to parse (`jsonParseError`,
`resp.json()` errors), or the content type is not JSON and the body is read as
text (`textBody`). -/
inductive RespBody where
  | jsonBody (v : Json)
  | jsonParseError
  | textBody (s : String)

/-- The `AuthHandler::response_result` (lib.rs 241-293), as a function of the
observations it makes of the response: HTTP success, presence of `X-Superuser`,
the parsed `X-Cache` header (`none` when absent or unparseable, matching the
code's fallback), and the body.  `none` models the `Err(..)` returns. -/
def response_result (success : Bool) (hasSuperuserHeader : Bool)
    (cacheHeader : Option Int) (body : RespBody) : Option ResponseResult :=
  if success then
    match body with
    | .jsonBody v =>
      match v with
      | .obj fields =>
        match (Json.objGet fields "result").bind Json.as_str with
        | none => none
        | some result =>
          let superuser := ((Json.objGet fields "superuser").bind Json.as_bool).getD
            hasSuperuserHeader
          let expire_at := (Json.objGet fields "expire_at").bind Json.as_u64
          match Permission.tryFromStr result superuser with
          | none => none
          | some permission =>
            let acl_data := Json.objGet fields "acl"
            some ⟨permission, superuser, cacheHeader, expire_at, acl_data⟩
      | .str s =>
        match Permission.tryFromStr s hasSuperuserHeader with
        | none => none
        | some permission =>
          some (ResponseResult.mk' permission hasSuperuserHeader cacheHeader)
      | _ => none
    | .jsonParseError => none
    | .textBody s =>
      some (ResponseResult.mk' (Permission.fromStr s hasSuperuserHeader)
        hasSuperuserHeader cacheHeader)
  else
    some (ResponseResult.mk' Permission.Ignore false none)

/-- The outcome of `AuthHandler::request` (lib.rs 380-420): a transport-level
failure (`none`), or a response handed to `response_result`.  The
`success/superuser-header/cache-header/body` tuple is the response observation. -/
def requestResult (transport : Option (Bool × Bool × Option Int × RespBody)) :
    Option ResponseResult :=
  match transport with
  | none => none
  | some (success, su, ch, body) => response_result success su ch body

/-! ### `auth` and `acl` outcome mapping (lib.rs 422-507) -/

variable {Rule : Type}

/-- The `AuthInfo` from `rmqtt::acl` (not under `src/`).
Modelled from the spec: "`AuthInfo`: `{superuser: bool, expire_at: optional
absolute instant, rules: ordered list of Rule}`" (spec §3); `expire_at` in
seconds as produced by `response_result`. -/
structure AuthInfo (Rule : Type) where
  superuser : Bool
  expire_at : Option Nat
  rules : List Rule
deriving DecidableEq

/-- Modelled from the spec: "`is_expired()` true when `expire_at` is set and
now ≥ expire_at" (spec §3, AuthInfo). -/
def AuthInfo.is_expired (ai : AuthInfo Rule) (now : Nat) : Bool :=
  match ai.expire_at with
  | some t => decide (t ≤ now)
  | none => false

/-- The `AuthHandler::auth` (lib.rs 422-480).  `authReqConfigured` is
`cfg.http_auth_req.is_some()`; `reqRes` the outcome of `self.request`;
`parseRule` models `Rule::try_from((acl, connect_info))` (`rmqtt::acl`, not
under `src/`), abstract per element. -/
def authOutcome (authReqConfigured : Bool) (denyIfError : Bool)
    (parseRule : Json → Option Rule)
    (reqRes : Option ResponseResult) : Permission × Option (AuthInfo Rule) :=
  if authReqConfigured then
    match reqRes with
    | some auth_res =>
      let auth_info :=
        match auth_res.permission with
        | .Allow _ =>
          match auth_res.acl_data.bind Json.as_array with
          | some acl_data =>
            match acl_data.mapM parseRule with
            | some rules => some ⟨auth_res.superuser, auth_res.expire_at, rules⟩
            | none => none
          | none => none
        | _ => none
      (auth_res.permission, auth_info)
    | none => if denyIfError then (.Deny, none) else (.Ignore, none)
  else (.Ignore, none)

/-- The `AuthHandler::acl` (lib.rs 482-507): returns `(Permission, Cacheable)`. -/
def aclOutcome (aclReqConfigured : Bool) (denyIfError : Bool)
    (reqRes : Option ResponseResult) : Permission × Option Int :=
  if aclReqConfigured then
    match reqRes with
    | some acl_res => (acl_res.permission, acl_res.cacheable)
    | none => if denyIfError then (.Deny, none) else (.Ignore, none)
  else (.Ignore, none)

/-! ### Hook results and the handler branches (lib.rs 525-672) -/

/-- The `AuthResult` variants used by the handler. -/
inductive AuthResult (Rule : Type) where
  | Allow (superuser : Bool) (auth_info : Option (AuthInfo Rule))
  | BadUsernameOrPassword
  | NotAuthorized
deriving DecidableEq

/-- The `SubscribeAclResult`: `new_success(qos, None)` / `new_failure(NotAuthorized)`. -/
inductive SubscribeAclResult where
  | success (qos : Nat)
  | failure
deriving DecidableEq

def SubscribeAclResult.isFailure : SubscribeAclResult → Bool
  | .failure => true
  | _ => false

/-- The `PublishAclResult`: `Allow` / `Rejected(disconnect)`. -/
inductive PublishAclResult where
  | Allow
  | Rejected (disconnect : Bool)
deriving DecidableEq

/-- The `HookResult` variants this handler reads or writes. -/
inductive HookResult (Rule : Type) where
  | AuthResult (r : AuthResult Rule)
  | SubscribeAclResult (r : SubscribeAclResult)
  | PublishAclResult (r : PublishAclResult)
deriving DecidableEq

/-- The `ReturnType = (bool, Option<HookResult>)`: (proceed, accumulator). -/
def ReturnType (Rule : Type) : Type := Bool × Option (HookResult Rule)

/-- The guard at the top of the `ClientAuthenticate` branch (lib.rs 531-537):
the accumulator already carries a failed auth result. -/
def accAuthFailed : Option (HookResult Rule) → Bool
  | some (.AuthResult .BadUsernameOrPassword) => true
  | some (.AuthResult .NotAuthorized) => true
  | _ => false

/-- The `Parameter::ClientAuthenticate` branch of `AuthHandler::hook`
(lib.rs 529-553), as a function of the accumulator, the result of
`self.auth(connect_info)` and the current time (for `is_expired`). -/
def clientAuthenticateHook (acc : Option (HookResult Rule))
    (authRes : Permission × Option (AuthInfo Rule)) (now : Nat) : ReturnType Rule :=
  if accAuthFailed acc then (false, acc)
  else
    match authRes with
    | (.Allow superuser, auth_info) =>
      if (auth_info.map (fun ai => ai.is_expired now)).getD false then
        (false, some (.AuthResult .NotAuthorized))
      else
        (false, some (.AuthResult (.Allow superuser auth_info)))
    | (.Deny, _) => (false, some (.AuthResult .BadUsernameOrPassword))
    | (.Ignore, _) => (true, none)

/-- The body of the `Parameter::ClientSubscribeCheckAcl` branch past its
accumulator guard (lib.rs 562-591). -/
def clientSubscribeAclCore (authInfoStep : Option (ReturnType Rule))
    (aclReqConfigured denyIfError : Bool)
    (reqRes : Option ResponseResult) (qos : Nat) : ReturnType Rule :=
  match authInfoStep with
  | some acl_res => acl_res
  | none =>
    match (aclOutcome aclReqConfigured denyIfError reqRes).1 with
    | .Allow _ => (false, some (.SubscribeAclResult (.success qos)))
    | .Deny => (false, some (.SubscribeAclResult .failure))
    | .Ignore => (true, none)

/-- The `Parameter::ClientSubscribeCheckAcl` branch (lib.rs 555-592), with the
handler state (the ACL cache) threaded through.  `authInfoStep` is the result
of `auth_info.subscribe_acl(subscribe)` when the session carries an `AuthInfo`
and a rule matched (`rmqtt::acl`, abstract); `qos` is `subscribe.opts.qos()`.
The source branch contains no reference to `self.caches`, so the cache passes
through unchanged and the result does not depend on it. -/
def clientSubscribeCheckAclHook (acc : Option (HookResult Rule))
    (authInfoStep : Option (ReturnType Rule)) (caches : Caches Id Topic)
    (aclReqConfigured denyIfError : Bool)
    (reqRes : Option ResponseResult) (qos : Nat) :
    ReturnType Rule × Caches Id Topic :=
  match acc with
  | some (.SubscribeAclResult r) =>
    if r.isFailure then ((false, some (.SubscribeAclResult r)), caches)
    else (clientSubscribeAclCore authInfoStep aclReqConfigured denyIfError reqRes qos, caches)
  | _ => (clientSubscribeAclCore authInfoStep aclReqConfigured denyIfError reqRes qos, caches)

/-- The verdict mapping at the tail of the `MessagePublishCheckAcl` branch
(lib.rs 633-644). -/
def publishVerdict (p : Permission) (disconnectIfPubRejected : Bool) : ReturnType Rule :=
  match p with
  | .Allow _ => (false, some (.PublishAclResult .Allow))
  | .Deny => (false, some (.PublishAclResult (.Rejected disconnectIfPubRejected)))
  | .Ignore => (true, none)

/-- The `Parameter::MessagePublishCheckAcl` branch (lib.rs 594-645), returning
`(returnValue, newCache, httpRequestIssued)`.  `authInfoStep` is the result of
`auth_info.publish_acl(publish, ..)` when the session's `AuthInfo` decides;
an HTTP request is issued exactly when the cache misses (or the entry is stale)
and `cfg.http_acl_req` is configured. -/
def messagePublishCheckAclHook (acc : Option (HookResult Rule))
    (authInfoStep : Option (ReturnType Rule))
    (caches : Caches Id Topic) (id : Id) (topic : Topic) (now : Int)
    (aclReqConfigured denyIfError : Bool) (reqRes : Option ResponseResult)
    (disconnectIfPubRejected : Bool) :
    ReturnType Rule × Caches Id Topic × Bool :=
  match acc with
  | some (.PublishAclResult (.Rejected d)) =>
    ((false, some (.PublishAclResult (.Rejected d))), caches, false)
  | _ =>
    match authInfoStep with
    | some acl_res => (acl_res, caches, false)
    | none =>
      match cacheValidGet caches id topic now with
      | some acl_res =>
        (publishVerdict acl_res disconnectIfPubRejected, caches, false)
      | none =>
        let res := aclOutcome aclReqConfigured denyIfError reqRes
        let caches' :=
          match res.2 with
          | some tm =>
            cache_set caches id topic res.1 (if tm < 0 then tm else now + tm)
          | none => caches
        (publishVerdict res.1 disconnectIfPubRejected, caches', aclReqConfigured)

/-- The `Parameter::ClientDisconnected` branch (lib.rs 662-664):
`self.cache_remove(&s.id)`. -/
def clientDisconnectedHook (caches : Caches Id Topic) (id : Id) : Caches Id Topic :=
  cache_remove caches id

end AuthHttp

namespace SessionStorage

/-- The fields of `DisconnectInfo` (`rmqtt::types`) read by the session-storage
plugin: `disconnected_at : TimestampMillis` and `mqtt_disconnect`.  `D` is the
(abstract) MQTT disconnect-reason type. -/
structure DisconnectInfo (D : Type) where
  disconnected_at : Int
  mqtt_disconnect : Option D

/-- The `u128 → i64` truncating cast applied to `Duration::as_millis()` in
`session_expiry_interval` (`as_millis() as i64`): two's-complement wrap. -/
def toI64 (n : Nat) : Int :=
  if n % 2 ^ 64 < 2 ^ 63 then ((n % 2 ^ 64 : Nat) : Int)
  else ((n % 2 ^ 64 : Nat) : Int) - 2 ^ 64

/-- The `session_expiry_interval` (rmqtt-session-storage lib.rs 678-689).
`fitter r` models `fitter.session_expiry_interval(r).as_millis()` (the
abstract per-listener policy, in milliseconds); `now` is `timestamp_millis()`. -/
def session_expiry_interval {D : Type} (fitter : Option D → Nat)
    (disconnect_info : Option (DisconnectInfo D)) (last_time : Int) (now : Int) : Int :=
  let disconnected_at := (disconnect_info.map (·.disconnected_at)).getD 0
  let disconnected_at := if disconnected_at ≤ 0 then last_time else disconnected_at
  toI64 (fitter (disconnect_info.bind (·.mqtt_disconnect))) - (now - disconnected_at)

/-- The `make_map_stored_key` (lib.rs 692-696). -/
def make_map_stored_key (id : String) : String := "map-" ++ id

/-- The `make_list_stored_key` (lib.rs 708-712). -/
def make_list_stored_key (id : String) : String := "list-" ++ id

/-- The expiry check of `StorageHandler::rebuild_offline_sessions`
(lib.rs 561-588) for one retained record: compute the session expiry
interval; when it is `≤ 0`, remove both the `map-` and `list-` records for
the record's `id_key` from storage and create no session; otherwise leave
storage untouched and hand the session to the rebuild executor with the
computed interval.  Storage is modelled as its set of stored keys. -/
def rebuildExpiryStep {D : Type} (fitter : Option D → Nat)
    (idKey : String) (last_time : Int) (disconnect_info : Option (DisconnectInfo D))
    (now : Int) (db : List String) : List String × Option Int :=
  let sei := session_expiry_interval fitter disconnect_info last_time now
  if sei ≤ 0 then
    (db.filter (fun k =>
      decide (k ≠ make_map_stored_key idKey ∧ k ≠ make_list_stored_key idKey)), none)
  else
    (db, some sei)

end SessionStorage

namespace PluginMgr

/-- The lifecycle state of a plugin `Entry` (plugin.rs 190-197).
Registered ↔ `inited = false ∧ active = false`; Inited ↔
`inited = true ∧ active = false`; Active ↔ `inited = true ∧ active = true`. -/
structure Entry where
  inited : Bool
  active : Bool
  immutable : Bool
deriving DecidableEq, Repr

/-- The `Manager::start` (plugin.rs 375-390) on a present entry, as a state
transformer.  `initRes`/`startRes` are the outcomes of the plugin's `init`
and `start` calls.  `get_mut` rejects immutable entries (plugin.rs 422-432);
the `?` operator propagates an error while keeping the entry mutations
already applied (the entry is mutated in place through the map reference). -/
def managerStart (e : Entry) (initRes startRes : Except String Unit) :
    Except String Unit × Entry :=
  if e.immutable then (.error "the plug-in is immutable", e)
  else
    match (if e.inited then Except.ok () else initRes) with
    | .error msg => (.error msg, e)
    | .ok _ =>
      let e1 : Entry := { e with inited := true }
      if e1.active then (.ok (), e1)
      else
        match startRes with
        | .error msg => (.error msg, e1)
        | .ok _ => (.ok (), { e1 with active := true })

end PluginMgr

namespace AuthJwt

/-- The `JWTFrom` (rmqtt-auth-jwt config): the configured token source. -/
inductive JWTFrom where
  | username
  | password
deriving DecidableEq

/-- The fields of `ConnectInfo` the token fetch reads: the CONNECT username
and the raw password bytes. -/
structure ConnectInfo where
  username : Option String
  password : Option (List Nat)

/-- The `AuthHandler::token` (rmqtt-auth-jwt lib.rs 119-126); `lossy` models
`String::from_utf8_lossy`. -/
def token (cfgFrom : JWTFrom) (lossy : List Nat → String) (ci : ConnectInfo) :
    Option String :=
  match cfgFrom with
  | .username => ci.username
  | .password => ci.password.map lossy

/-- The `Parameter::ClientAuthenticate` branch of the JWT `AuthHandler::hook`
(rmqtt-auth-jwt lib.rs 282-339) up to and including the token fetch.
`rest t` abstracts the remainder of the branch (header decode,
`standard_auth`, `extended_auth`, claim reading) run on a present token; the
returned flag records whether that remainder — and hence any token decoding —
was reached. -/
def clientAuthenticateJwt {Rule : Type} (acc : Option (AuthHttp.HookResult Rule))
    (tokenOpt : Option String) (rest : String → AuthHttp.ReturnType Rule) :
    AuthHttp.ReturnType Rule × Bool :=
  if AuthHttp.accAuthFailed acc then ((false, acc), false)
  else
    match tokenOpt with
    | none => ((false, some (.AuthResult .NotAuthorized)), false)
    | some t => (rest t, true)

end AuthJwt

namespace Grpc

/-! ### Bincode fixed-int encoding primitives

`Message::encode`/`decode` and `MessageReply::encode`/`decode`
(rmqtt/src/grpc.rs 283-292, 313-322) delegate to `bincode::serialize` /
`bincode::deserialize` on `(u64, Message)` resp. `MessageReply`.  Bincode 1.x
with its default options writes fixed-width little-endian integers, `u32`
enum-variant indices, `u64` length prefixes for sequences, one-byte tags for
`Option` and `bool`, and allows trailing bytes on deserialization.  Bytes are
modelled as `Nat`. -/

/-- Little-endian bytes of `n`, `w` bytes wide. -/
def leBytes : Nat → Nat → List Nat
  | 0, _ => []
  | w + 1, n => n % 256 :: leBytes w (n / 256)

/-- Value of a little-endian byte list. -/
def leVal : List Nat → Nat
  | [] => 0
  | b :: bs => b + 256 * leVal bs

/-- Read exactly `n` bytes, returning them and the remainder. -/
def readN : Nat → List Nat → Option (List Nat × List Nat)
  | 0, l => some ([], l)
  | _ + 1, [] => none
  | n + 1, b :: l => (readN n l).map fun p => (b :: p.1, p.2)

/-- A binary codec: encoder, decoder on a prefix of the input (the remainder
is returned), and the validity domain on which it round-trips (machine-integer
bounds such as `usize` ranges). -/
structure Codec (α : Type) where
  enc : α → List Nat
  dec : List Nat → Option (α × List Nat)
  valid : α → Prop

/-- A codec round-trips on its validity domain, for any trailing bytes. -/
def RoundTrips {α : Type} (c : Codec α) : Prop :=
  ∀ a, c.valid a → ∀ rest, c.dec (c.enc a ++ rest) = some (a, rest)

/-- Fixed 8-byte little-endian `u64`. -/
def u64c : Codec Nat where
  enc := leBytes 8
  dec l := (readN 8 l).map fun p => (leVal p.1, p.2)
  valid n := n < 2 ^ 64

/-- Fixed 4-byte little-endian `u32` (bincode's enum-variant index). -/
def u32c : Codec Nat where
  enc := leBytes 4
  dec l := (readN 4 l).map fun p => (leVal p.1, p.2)
  valid n := n < 2 ^ 32

/-- Decoder for one-byte booleans. -/
def boolDec : List Nat → Option (Bool × List Nat)
  | 0 :: r => some (false, r)
  | 1 :: r => some (true, r)
  | _ => none

/-- The `bool`: one byte, `0` or `1`; anything else is a decode error. -/
def boolc : Codec Bool where
  enc b := [if b then 1 else 0]
  dec := boolDec
  valid _ := True

/-- Byte strings (`Vec<u8>` / `String` as UTF-8 bytes): `u64` length prefix
followed by the bytes. -/
def bytesc : Codec (List Nat) where
  enc l := leBytes 8 l.length ++ l
  dec l := (readN 8 l).bind fun p => readN (leVal p.1) p.2
  valid l := l.length < 2 ^ 64

/-- Decoder for `Option<T>` payloads. -/
def optionDec {α : Type} (c : Codec α) : List Nat → Option (Option α × List Nat)
  | 0 :: r => some (none, r)
  | 1 :: r => (c.dec r).map fun p => (some p.1, p.2)
  | _ => none

/-- The `Option<T>`: one-byte tag (`0` = `None`, `1` = `Some`) plus payload. -/
def optionc {α : Type} (c : Codec α) : Codec (Option α) where
  enc
    | none => [0]
    | some a => 1 :: c.enc a
  dec := optionDec c
  valid
    | none => True
    | some a => c.valid a

/-- Pairs: the two payloads in order (tuples have no framing in bincode). -/
def pairc {α β : Type} (ca : Codec α) (cb : Codec β) : Codec (α × β) where
  enc p := ca.enc p.1 ++ cb.enc p.2
  dec l := (ca.dec l).bind fun p => (cb.dec p.2).map fun q => ((p.1, q.1), q.2)
  valid p := ca.valid p.1 ∧ cb.valid p.2

/-- Decode `n` consecutive elements. -/
def decListN {α : Type} (c : Codec α) : Nat → List Nat → Option (List α × List Nat)
  | 0, l => some ([], l)
  | n + 1, l =>
    (c.dec l).bind fun p => (decListN c n p.2).map fun q => (p.1 :: q.1, q.2)

/-- The `Vec<T>`: `u64` length prefix followed by the elements. -/
def listc {α : Type} (c : Codec α) : Codec (List α) where
  enc l := leBytes 8 l.length ++ (l.map c.enc).flatten
  dec l := (readN 8 l).bind fun p => decListN c (leVal p.1) p.2
  valid l := l.length < 2 ^ 64 ∧ ∀ a ∈ l, c.valid a

/-- The payload types appearing in the `Message` / `MessageReply` enums
(grpc.rs 265-281, 294-311).  They live in `rmqtt::types` outside the embedded
sources and carry bincode-derived codecs, so they are held abstract. -/
structure GrpcTypes where
  Frm : Type
  Publish : Type
  SubRelations : Type
  Id : Type
  CleanStart : Type
  ClearSubscriptions : Type
  IsAdmin : Type
  TopicFilter : Type
  SubsSearchParams : Type
  ClientId : Type
  SharedGroup : Type
  SubRelationsMap : Type
  SubscriptionClientIds : Type
  OfflineSession : Type
  TopicName : Type
  Retain : Type
  SubsSearchResult : Type
  Route : Type
  SessionStatus : Type
  MsgID : Type

/-- A bincode codec for each abstract payload type. -/
structure GrpcCodecs (T : GrpcTypes) where
  cFrm : Codec T.Frm
  cPublish : Codec T.Publish
  cSubRelations : Codec T.SubRelations
  cId : Codec T.Id
  cCleanStart : Codec T.CleanStart
  cClearSubscriptions : Codec T.ClearSubscriptions
  cIsAdmin : Codec T.IsAdmin
  cTopicFilter : Codec T.TopicFilter
  cSubsSearchParams : Codec T.SubsSearchParams
  cClientId : Codec T.ClientId
  cSharedGroup : Codec T.SharedGroup
  cSubRelationsMap : Codec T.SubRelationsMap
  cSubscriptionClientIds : Codec T.SubscriptionClientIds
  cOfflineSession : Codec T.OfflineSession
  cTopicName : Codec T.TopicName
  cRetain : Codec T.Retain
  cSubsSearchResult : Codec T.SubsSearchResult
  cRoute : Codec T.Route
  cSessionStatus : Codec T.SessionStatus
  cMsgID : Codec T.MsgID

/-- Every payload codec round-trips (bincode's own guarantee for the derived
`Serialize`/`Deserialize` pairs). -/
structure GrpcCodecs.Good {T : GrpcTypes} (C : GrpcCodecs T) : Prop where
  hFrm : RoundTrips C.cFrm
  hPublish : RoundTrips C.cPublish
  hSubRelations : RoundTrips C.cSubRelations
  hId : RoundTrips C.cId
  hCleanStart : RoundTrips C.cCleanStart
  hClearSubscriptions : RoundTrips C.cClearSubscriptions
  hIsAdmin : RoundTrips C.cIsAdmin
  hTopicFilter : RoundTrips C.cTopicFilter
  hSubsSearchParams : RoundTrips C.cSubsSearchParams
  hClientId : RoundTrips C.cClientId
  hSharedGroup : RoundTrips C.cSharedGroup
  hSubRelationsMap : RoundTrips C.cSubRelationsMap
  hSubscriptionClientIds : RoundTrips C.cSubscriptionClientIds
  hOfflineSession : RoundTrips C.cOfflineSession
  hTopicName : RoundTrips C.cTopicName
  hRetain : RoundTrips C.cRetain
  hSubsSearchResult : RoundTrips C.cSubsSearchResult
  hRoute : RoundTrips C.cRoute
  hSessionStatus : RoundTrips C.cSessionStatus
  hMsgID : RoundTrips C.cMsgID

/-- The `enum Message` (grpc.rs 265-281).  `usize` is modelled as `Nat` (validity
bounds it by `2^64`), `Vec<u8>` as `List Nat`. -/
inductive GMessage (T : GrpcTypes) where
  | Forwards (f : T.Frm) (p : T.Publish)
  | ForwardsTo (f : T.Frm) (p : T.Publish) (sr : T.SubRelations)
  | Kick (i : T.Id) (cs : T.CleanStart) (cl : T.ClearSubscriptions) (ia : T.IsAdmin)
  | GetRetains (tf : T.TopicFilter)
  | SubscriptionsSearch (sp : T.SubsSearchParams)
  | SubscriptionsGet (cid : T.ClientId)
  | RoutesGet (n : Nat)
  | RoutesGetBy (tf : T.TopicFilter)
  | NumberOfClients
  | NumberOfSessions
  | Online (cid : T.ClientId)
  | SessionStatus (cid : T.ClientId)
  | MessageGet (cid : T.ClientId) (tf : T.TopicFilter) (g : Option T.SharedGroup)
  | Data (d : List Nat)

/-- The `Message::encode` (grpc.rs 284-287): `bincode::serialize(&(typ, self))` —
the `u64` type code, then the `u32` variant index, then the fields in order. -/
def GMessage.encode {T : GrpcTypes} (C : GrpcCodecs T) (m : GMessage T)
    (typ : Nat) : List Nat :=
  u64c.enc typ ++
  match m with
  | .Forwards f p => u32c.enc 0 ++ C.cFrm.enc f ++ C.cPublish.enc p
  | .ForwardsTo f p sr =>
    u32c.enc 1 ++ C.cFrm.enc f ++ C.cPublish.enc p ++ C.cSubRelations.enc sr
  | .Kick i cs cl ia =>
    u32c.enc 2 ++ C.cId.enc i ++ C.cCleanStart.enc cs ++
      C.cClearSubscriptions.enc cl ++ C.cIsAdmin.enc ia
  | .GetRetains tf => u32c.enc 3 ++ C.cTopicFilter.enc tf
  | .SubscriptionsSearch sp => u32c.enc 4 ++ C.cSubsSearchParams.enc sp
  | .SubscriptionsGet cid => u32c.enc 5 ++ C.cClientId.enc cid
  | .RoutesGet n => u32c.enc 6 ++ u64c.enc n
  | .RoutesGetBy tf => u32c.enc 7 ++ C.cTopicFilter.enc tf
  | .NumberOfClients => u32c.enc 8
  | .NumberOfSessions => u32c.enc 9
  | .Online cid => u32c.enc 10 ++ C.cClientId.enc cid
  | .SessionStatus cid => u32c.enc 11 ++ C.cClientId.enc cid
  | .MessageGet cid tf g =>
    u32c.enc 12 ++ C.cClientId.enc cid ++ C.cTopicFilter.enc tf ++
      (optionc C.cSharedGroup).enc g
  | .Data d => u32c.enc 13 ++ bytesc.enc d

/-- Decode the fields of the variant with index `idx`. -/
def GMessage.decodeBody {T : GrpcTypes} (C : GrpcCodecs T) (idx : Nat)
    (r : List Nat) : Option (GMessage T) :=
  match idx with
  | 0 =>
    match C.cFrm.dec r with
    | some (f, r1) =>
      match C.cPublish.dec r1 with
      | some (p, _) => some (.Forwards f p)
      | none => none
    | none => none
  | 1 =>
    match C.cFrm.dec r with
    | some (f, r1) =>
      match C.cPublish.dec r1 with
      | some (p, r2) =>
        match C.cSubRelations.dec r2 with
        | some (sr, _) => some (.ForwardsTo f p sr)
        | none => none
      | none => none
    | none => none
  | 2 =>
    match C.cId.dec r with
    | some (i, r1) =>
      match C.cCleanStart.dec r1 with
      | some (cs, r2) =>
        match C.cClearSubscriptions.dec r2 with
        | some (cl, r3) =>
          match C.cIsAdmin.dec r3 with
          | some (ia, _) => some (.Kick i cs cl ia)
          | none => none
        | none => none
      | none => none
    | none => none
  | 3 =>
    match C.cTopicFilter.dec r with
    | some (tf, _) => some (.GetRetains tf)
    | none => none
  | 4 =>
    match C.cSubsSearchParams.dec r with
    | some (sp, _) => some (.SubscriptionsSearch sp)
    | none => none
  | 5 =>
    match C.cClientId.dec r with
    | some (cid, _) => some (.SubscriptionsGet cid)
    | none => none
  | 6 =>
    match u64c.dec r with
    | some (n, _) => some (.RoutesGet n)
    | none => none
  | 7 =>
    match C.cTopicFilter.dec r with
    | some (tf, _) => some (.RoutesGetBy tf)
    | none => none
  | 8 => some .NumberOfClients
  | 9 => some .NumberOfSessions
  | 10 =>
    match C.cClientId.dec r with
    | some (cid, _) => some (.Online cid)
    | none => none
  | 11 =>
    match C.cClientId.dec r with
    | some (cid, _) => some (.SessionStatus cid)
    | none => none
  | 12 =>
    match C.cClientId.dec r with
    | some (cid, r1) =>
      match C.cTopicFilter.dec r1 with
      | some (tf, r2) =>
        match (optionc C.cSharedGroup).dec r2 with
        | some (g, _) => some (.MessageGet cid tf g)
        | none => none
      | none => none
    | none => none
  | 13 =>
    match bytesc.dec r with
    | some (d, _) => some (.Data d)
    | none => none
  | _ => none

/-- The `Message::decode` (grpc.rs 288-291):
`bincode::deserialize::<(MessageType, Message)>(data)`. -/
def GMessage.decode {T : GrpcTypes} (C : GrpcCodecs T) (data : List Nat) :
    Option (Nat × GMessage T) :=
  match u64c.dec data with
  | some (typ, r1) =>
    match u32c.dec r1 with
    | some (idx, r2) =>
      match GMessage.decodeBody C idx r2 with
      | some m => some (typ, m)
      | none => none
    | none => none
  | none => none

/-- Field-wise validity (codec domains; machine-integer bounds for the
concrete fields). -/
def GMessage.Valid {T : GrpcTypes} (C : GrpcCodecs T) : GMessage T → Prop
  | .Forwards f p => C.cFrm.valid f ∧ C.cPublish.valid p
  | .ForwardsTo f p sr => C.cFrm.valid f ∧ C.cPublish.valid p ∧ C.cSubRelations.valid sr
  | .Kick i cs cl ia =>
    C.cId.valid i ∧ C.cCleanStart.valid cs ∧ C.cClearSubscriptions.valid cl ∧
      C.cIsAdmin.valid ia
  | .GetRetains tf => C.cTopicFilter.valid tf
  | .SubscriptionsSearch sp => C.cSubsSearchParams.valid sp
  | .SubscriptionsGet cid => C.cClientId.valid cid
  | .RoutesGet n => n < 2 ^ 64
  | .RoutesGetBy tf => C.cTopicFilter.valid tf
  | .NumberOfClients => True
  | .NumberOfSessions => True
  | .Online cid => C.cClientId.valid cid
  | .SessionStatus cid => C.cClientId.valid cid
  | .MessageGet cid tf g =>
    C.cClientId.valid cid ∧ C.cTopicFilter.valid tf ∧ (optionc C.cSharedGroup).valid g
  | .Data d => d.length < 2 ^ 64

/-- The `enum MessageReply` (grpc.rs 294-311).  `Error(String)` is modelled as
UTF-8 bytes, `usize` as `Nat`, vectors as lists. -/
inductive GReply (T : GrpcTypes) where
  | Success
  | Forwards (m : T.SubRelationsMap) (c : T.SubscriptionClientIds)
  | Error (s : List Nat)
  | Kick (o : T.OfflineSession)
  | GetRetains (xs : List (T.TopicName × T.Retain))
  | SubscriptionsSearch (xs : List T.SubsSearchResult)
  | SubscriptionsGet (xs : Option (List T.SubsSearchResult))
  | RoutesGet (xs : List T.Route)
  | RoutesGetBy (xs : List T.Route)
  | NumberOfClients (n : Nat)
  | NumberOfSessions (n : Nat)
  | Online (b : Bool)
  | SessionStatus (s : Option T.SessionStatus)
  | MessageGet (xs : List (T.MsgID × T.Frm × T.Publish))
  | Data (d : List Nat)

/-- The `MessageReply::encode` (grpc.rs 314-317): `bincode::serialize(self)` —
the `u32` variant index, then the fields. -/
def GReply.encode {T : GrpcTypes} (C : GrpcCodecs T) (r : GReply T) : List Nat :=
  match r with
  | .Success => u32c.enc 0
  | .Forwards m c =>
    u32c.enc 1 ++ C.cSubRelationsMap.enc m ++ C.cSubscriptionClientIds.enc c
  | .Error s => u32c.enc 2 ++ bytesc.enc s
  | .Kick o => u32c.enc 3 ++ C.cOfflineSession.enc o
  | .GetRetains xs => u32c.enc 4 ++ (listc (pairc C.cTopicName C.cRetain)).enc xs
  | .SubscriptionsSearch xs => u32c.enc 5 ++ (listc C.cSubsSearchResult).enc xs
  | .SubscriptionsGet xs => u32c.enc 6 ++ (optionc (listc C.cSubsSearchResult)).enc xs
  | .RoutesGet xs => u32c.enc 7 ++ (listc C.cRoute).enc xs
  | .RoutesGetBy xs => u32c.enc 8 ++ (listc C.cRoute).enc xs
  | .NumberOfClients n => u32c.enc 9 ++ u64c.enc n
  | .NumberOfSessions n => u32c.enc 10 ++ u64c.enc n
  | .Online b => u32c.enc 11 ++ boolc.enc b
  | .SessionStatus s => u32c.enc 12 ++ (optionc C.cSessionStatus).enc s
  | .MessageGet xs =>
    u32c.enc 13 ++ (listc (pairc C.cMsgID (pairc C.cFrm C.cPublish))).enc xs
  | .Data d => u32c.enc 14 ++ bytesc.enc d

/-- Decode the fields of the reply variant with index `idx`. -/
def GReply.decodeBody {T : GrpcTypes} (C : GrpcCodecs T) (idx : Nat)
    (r : List Nat) : Option (GReply T) :=
  match idx with
  | 0 => some .Success
  | 1 =>
    match C.cSubRelationsMap.dec r with
    | some (m, r1) =>
      match C.cSubscriptionClientIds.dec r1 with
      | some (c, _) => some (.Forwards m c)
      | none => none
    | none => none
  | 2 =>
    match bytesc.dec r with
    | some (s, _) => some (.Error s)
    | none => none
  | 3 =>
    match C.cOfflineSession.dec r with
    | some (o, _) => some (.Kick o)
    | none => none
  | 4 =>
    match (listc (pairc C.cTopicName C.cRetain)).dec r with
    | some (xs, _) => some (.GetRetains xs)
    | none => none
  | 5 =>
    match (listc C.cSubsSearchResult).dec r with
    | some (xs, _) => some (.SubscriptionsSearch xs)
    | none => none
  | 6 =>
    match (optionc (listc C.cSubsSearchResult)).dec r with
    | some (xs, _) => some (.SubscriptionsGet xs)
    | none => none
  | 7 =>
    match (listc C.cRoute).dec r with
    | some (xs, _) => some (.RoutesGet xs)
    | none => none
  | 8 =>
    match (listc C.cRoute).dec r with
    | some (xs, _) => some (.RoutesGetBy xs)
    | none => none
  | 9 =>
    match u64c.dec r with
    | some (n, _) => some (.NumberOfClients n)
    | none => none
  | 10 =>
    match u64c.dec r with
    | some (n, _) => some (.NumberOfSessions n)
    | none => none
  | 11 =>
    match boolc.dec r with
    | some (b, _) => some (.Online b)
    | none => none
  | 12 =>
    match (optionc C.cSessionStatus).dec r with
    | some (s, _) => some (.SessionStatus s)
    | none => none
  | 13 =>
    match (listc (pairc C.cMsgID (pairc C.cFrm C.cPublish))).dec r with
    | some (xs, _) => some (.MessageGet xs)
    | none => none
  | 14 =>
    match bytesc.dec r with
    | some (d, _) => some (.Data d)
    | none => none
  | _ => none

/-- The `MessageReply::decode` (grpc.rs 318-321). -/
def GReply.decode {T : GrpcTypes} (C : GrpcCodecs T) (data : List Nat) :
    Option (GReply T) :=
  match u32c.dec data with
  | some (idx, r) => GReply.decodeBody C idx r
  | none => none

/-- Field-wise validity for replies. -/
def GReply.Valid {T : GrpcTypes} (C : GrpcCodecs T) : GReply T → Prop
  | .Success => True
  | .Forwards m c => C.cSubRelationsMap.valid m ∧ C.cSubscriptionClientIds.valid c
  | .Error s => s.length < 2 ^ 64
  | .Kick o => C.cOfflineSession.valid o
  | .GetRetains xs => (listc (pairc C.cTopicName C.cRetain)).valid xs
  | .SubscriptionsSearch xs => (listc C.cSubsSearchResult).valid xs
  | .SubscriptionsGet xs => (optionc (listc C.cSubsSearchResult)).valid xs
  | .RoutesGet xs => (listc C.cRoute).valid xs
  | .RoutesGetBy xs => (listc C.cRoute).valid xs
  | .NumberOfClients n => n < 2 ^ 64
  | .NumberOfSessions n => n < 2 ^ 64
  | .Online _ => True
  | .SessionStatus s => (optionc C.cSessionStatus).valid s
  | .MessageGet xs => (listc (pairc C.cMsgID (pairc C.cFrm C.cPublish))).valid xs
  | .Data d => d.length < 2 ^ 64

/-- The all-`Unit` instantiation used to witness the round-trip theorem. -/
def unitTypes : GrpcTypes :=
  ⟨Unit, Unit, Unit, Unit, Unit, Unit, Unit, Unit, Unit, Unit,
   Unit, Unit, Unit, Unit, Unit, Unit, Unit, Unit, Unit, Unit⟩

/-- The trivial codec on `Unit`: empty encoding. -/
def unitc : Codec Unit where
  enc _ := []
  dec l := some ((), l)
  valid _ := True

/-- Trivial codecs for the all-`Unit` instantiation. -/
def unitCodecs : GrpcCodecs unitTypes :=
  ⟨unitc, unitc, unitc, unitc, unitc, unitc, unitc, unitc, unitc, unitc,
   unitc, unitc, unitc, unitc, unitc, unitc, unitc, unitc, unitc, unitc⟩

end Grpc

/-! ## Theorems -/

namespace AuthHttp

theorem lookupA_insertA {κ α : Type} [DecidableEq κ] (l : List (κ × α)) (k : κ) (v : α) :
    lookupA (insertA l k v) k = some v := by
  induction l with
  | nil => simp [insertA, lookupA]
  | cons kv rest ih =>
    by_cases h : kv.1 = k
    · simp [insertA, lookupA, h]
    · simp only [insertA, lookupA]
      rw [if_neg h, lookupA, if_neg h, ih]

theorem lookupA_removeA {κ α : Type} [DecidableEq κ] (l : List (κ × α)) (k : κ) :
    lookupA (removeA l k) k = none := by
  induction l with
  | nil => simp [removeA, lookupA]
  | cons kv rest ih =>
    by_cases h : kv.1 = k
    · simpa [removeA, h] using ih
    · simp only [removeA, List.filter_cons] at ih ⊢
      simp only [ne_eq, decide_not] at ih ⊢
      simp [h, lookupA, ih]

/-- C1 counterexample:  The claim states that a `cache_get(S,T)` performed
at or after the expiry `e` returns `None` (stale entries being evicted on
access).  In the code `cache_get` never consults the clock and nothing evicts
stale entries: after `cache_set(S,T,Deny,1)`, `cache_get(S,T)` still returns
`Some (Deny, 1)` at any time `now ≥ 1`. -/
theorem cache_get_after_expiry_not_none :
    ¬ (∀ now : Int, 1 ≤ now →
        cache_get (cache_set ([] : Caches Nat Nat) 0 0 .Deny 1) 0 0 = none) :=
  fun h => absurd (h 1 le_rfl) (by decide)

/-- C1 amended:  After `cache_set(S,T,v,e)` with `e > 0`, `cache_get(S,T)`
returns `Some (v, e)` at *any* time; the publish-ACL hook's cache consultation
(`cacheValidGet`) yields the cached verdict exactly while `now < e` and treats
the entry as a miss afterwards — without evicting it. -/
theorem cache_set_get_validity {Id Topic : Type} [DecidableEq Id] [DecidableEq Topic]
    (caches : Caches Id Topic) (S : Id) (T : Topic) (v : Permission) (e : Int)
    (he : 0 < e) (now : Int) :
    cache_get (cache_set caches S T v e) S T = some (v, e) ∧
    cacheValidGet (cache_set caches S T v e) S T now =
      (if now < e then some v else none) := by
  have hget : cache_get (cache_set caches S T v e) S T = some (v, e) := by
    unfold cache_get cache_set
    rw [lookupA_insertA]
    simp [lookupA_insertA]
  refine ⟨hget, ?_⟩
  unfold cacheValidGet
  rw [hget]
  have hne : ¬ e < 0 := by omega
  by_cases h : now < e <;> simp [hne, h]

/-- Witness for the C1 amended theorem at `S = 0`, `T = 0`, `v = Allow false`,
`e = 5`, `now = 3 < 5`. -/
theorem cache_set_get_validity_witness :
    cache_get (cache_set ([] : Caches Nat Nat) 0 0 (.Allow false) 5) 0 0 =
      some (.Allow false, 5) ∧
    cacheValidGet (cache_set ([] : Caches Nat Nat) 0 0 (.Allow false) 5) 0 0 3 =
      (if (3 : Int) < 5 then some (.Allow false) else none) :=
  cache_set_get_validity [] 0 0 (.Allow false) 5 (by decide) 3

/-- C6:  After the `ClientDisconnected` hook fires for a session `S`, every
ACL-cache entry keyed by `S` is dropped: `cache_get(S, T)` returns `None` for
every topic `T`. -/
theorem disconnect_clears_cache {Id Topic : Type} [DecidableEq Id] [DecidableEq Topic]
    (caches : Caches Id Topic) (S : Id) (T : Topic) :
    cache_get (clientDisconnectedHook caches S) S T = none := by
  unfold clientDisconnectedHook cache_remove cache_get
  rw [lookupA_removeA]
  rfl

/-- C5 counterexample:  The claim states the non-JSON response body is the
verdict string, drawn from `{"allow","deny","ignore"}`.  In the code the
non-JSON branch uses `Permission::from`, which maps any *other* body text to
`Allow(superuser)` rather than rejecting it: body `"whatever"` produces a
successful `Allow` result. -/
theorem text_verdict_not_restricted :
    ¬ (∀ s : String, (response_result true false none (.textBody s)).isSome →
        s ∈ (["allow", "deny", "ignore"] : List String)) :=
  fun h => absurd (h "whatever" rfl) (by decide)

/-- C5 amended:  For a successful non-JSON response, the body text is
interpreted by `Permission::from`: `"allow" ↦ Allow(superuser)`,
`"deny" ↦ Deny`, `"ignore" ↦ Ignore`, and any other body text falls through to
`Allow(superuser)`. -/
theorem text_verdict_mapping (su : Bool) (ch : Option Int) (s : String) :
    response_result true su ch (.textBody s) =
      some (ResponseResult.mk' (Permission.fromStr s su) su ch) ∧
    Permission.fromStr "allow" su = .Allow su ∧
    Permission.fromStr "deny" su = .Deny ∧
    Permission.fromStr "ignore" su = .Ignore ∧
    (s ∉ (["allow", "deny", "ignore"] : List String) →
      Permission.fromStr s su = .Allow su) := by
  refine ⟨rfl, by simp [Permission.fromStr], by simp [Permission.fromStr],
    by simp [Permission.fromStr], ?_⟩
  intro hs
  simp only [List.mem_cons, List.not_mem_nil, or_false, not_or] at hs
  obtain ⟨h1, h2, h3⟩ := hs
  simp [Permission.fromStr, h1, h2, h3]

/-- C2 counterexample:  The claim states that whenever the backend verdict
is `Allow` the handler commits `AuthResult::Allow(superuser, auth_info)`.  But
when the response carries an `acl` field together with an already-elapsed
`expire_at`, the verdict is `Allow` and yet the handler commits
`NotAuthorized` (lib.rs 541-543): here the backend answers 200 with JSON body
`{"result":"allow","expire_at":1,"acl":[]}` and the hook runs at `now = 2`. -/
theorem allow_expired_commits_not_authorized :
    (authOutcome true false (fun _ => (some () : Option Unit))
        (requestResult (some (true, false, none, .jsonBody (.obj
          [("result", .str "allow"), ("expire_at", .num 1), ("acl", .arr [])]))))).1
      = Permission.Allow false ∧
    clientAuthenticateHook none
      (authOutcome true false (fun _ => (some () : Option Unit))
        (requestResult (some (true, false, none, .jsonBody (.obj
          [("result", .str "allow"), ("expire_at", .num 1), ("acl", .arr [])])))))
      2
      = (false, some (.AuthResult .NotAuthorized)) :=
  ⟨rfl, rfl⟩

/-- C2 amended:  For every `ClientAuthenticate` dispatch through the HTTP
auth handler whose accumulator does not already carry a failed auth result:
a verdict `Allow` whose accompanying `auth_info` (if any) is not expired
commits `Allow(superuser, auth_info)` and halts the chain; a verdict `Allow`
with expired `auth_info` commits `NotAuthorized` and halts; `Deny` commits
`BadUsernameOrPassword` and halts; `Ignore` yields to the next handler
(`proceed = true`) with an empty accumulator.  For a 200 response with header
`X-Superuser` present, JSON body `{"result":"allow"}` and no `acl` field, the
outcome is `Allow(superuser = true, auth_info = None)` and the chain halts. -/
theorem authenticate_verdict_mapping {Rule : Type}
    (acc : Option (HookResult Rule)) (hacc : accAuthFailed acc = false) (now : Nat) :
    (∀ (su : Bool) (ai : Option (AuthInfo Rule)),
      (ai.map (fun a => a.is_expired now)).getD false = false →
      clientAuthenticateHook acc (.Allow su, ai) now =
        (false, some (.AuthResult (.Allow su ai)))) ∧
    (∀ (su : Bool) (ai : Option (AuthInfo Rule)),
      (ai.map (fun a => a.is_expired now)).getD false = true →
      clientAuthenticateHook acc (.Allow su, ai) now =
        (false, some (.AuthResult .NotAuthorized))) ∧
    (∀ ai, clientAuthenticateHook acc (.Deny, ai) now =
      (false, some (.AuthResult .BadUsernameOrPassword))) ∧
    (∀ ai, clientAuthenticateHook acc (.Ignore, ai) now = (true, none)) ∧
    (∀ (parseRule : Json → Option Rule) (denyIfError : Bool),
      clientAuthenticateHook acc
        (authOutcome true denyIfError parseRule (requestResult (some (true, true, none,
          .jsonBody (.obj [("result", .str "allow")]))))) now =
        (false, some (.AuthResult (.Allow true none)))) := by
  refine ⟨?_, ?_, ?_, ?_, ?_⟩
  · intro su ai hexp
    simp [clientAuthenticateHook, hacc, hexp]
  · intro su ai hexp
    simp [clientAuthenticateHook, hacc, hexp]
  · intro ai
    simp [clientAuthenticateHook, hacc]
  · intro ai
    simp [clientAuthenticateHook, hacc]
  · intro parseRule denyIfError
    have hres : authOutcome true denyIfError parseRule (requestResult (some (true, true,
        none, .jsonBody (.obj [("result", .str "allow")])))) =
        ((.Allow true : Permission), (none : Option (AuthInfo Rule))) := rfl
    rw [hres]
    simp [clientAuthenticateHook, hacc]

/-- Witness for the C2 amended theorem: with an empty accumulator, a `Deny`
verdict commits `BadUsernameOrPassword` and halts. -/
theorem authenticate_verdict_mapping_witness :
    clientAuthenticateHook (none : Option (HookResult Unit)) (.Deny, none) 0 =
      (false, some (.AuthResult .BadUsernameOrPassword)) :=
  (authenticate_verdict_mapping none rfl 0).2.2.1 none

/-- C3:  When the HTTP request fails at the transport layer (the request
outcome is an error), the authenticate path commits `BadUsernameOrPassword`
and halts if `deny_if_error` is set and otherwise yields `Ignore`
(`proceed = true`, empty accumulator); the subscribe- and publish-ACL paths
likewise commit their `Deny` forms (`NotAuthorized` ack / `Rejected`) or
yield, with the ACL cache left unchanged. -/
theorem transport_error_policy {Rule Id Topic : Type}
    [DecidableEq Id] [DecidableEq Topic]
    (acc : Option (HookResult Rule)) (hacc : accAuthFailed acc = false)
    (parseRule : Json → Option Rule) (now : Nat) (denyIfError : Bool)
    (caches : Caches Id Topic) (id : Id) (topic : Topic) (tnow : Int) (d : Bool)
    (qos : Nat)
    (hmiss : cacheValidGet caches id topic tnow = none) :
    (clientAuthenticateHook acc
        (authOutcome true denyIfError parseRule (requestResult none)) now =
      if denyIfError then (false, some (.AuthResult .BadUsernameOrPassword))
      else (true, none)) ∧
    (clientSubscribeCheckAclHook (none : Option (HookResult Rule)) none caches
        true denyIfError (requestResult none) qos =
      ((if denyIfError then (false, some (.SubscribeAclResult .failure))
        else (true, none)), caches)) ∧
    (messagePublishCheckAclHook (none : Option (HookResult Rule)) none caches id topic
        tnow true denyIfError (requestResult none) d =
      ((if denyIfError then (false, some (.PublishAclResult (.Rejected d)))
        else (true, none)), caches, true)) := by
  by_cases hd : denyIfError
  · subst hd
    refine ⟨?_, ?_, ?_⟩
    · simp [clientAuthenticateHook, hacc, authOutcome, requestResult]
    · simp [clientSubscribeCheckAclHook, clientSubscribeAclCore, aclOutcome, requestResult]
    · simp [messagePublishCheckAclHook, hmiss, aclOutcome, requestResult, publishVerdict]
  · simp only [Bool.not_eq_true] at hd
    subst hd
    refine ⟨?_, ?_, ?_⟩
    · simp [clientAuthenticateHook, hacc, authOutcome, requestResult]
    · simp [clientSubscribeCheckAclHook, clientSubscribeAclCore, aclOutcome, requestResult]
    · simp [messagePublishCheckAclHook, hmiss, aclOutcome, requestResult, publishVerdict]

/-- Witness for the C3 theorem: `deny_if_error = true`, unreachable server,
authenticate commits `BadUsernameOrPassword`. -/
theorem transport_error_policy_witness :
    clientAuthenticateHook (none : Option (HookResult Unit))
        (authOutcome true true (fun _ => (some () : Option Unit))
          (requestResult none)) 0 =
      (false, some (.AuthResult .BadUsernameOrPassword)) := by
  simpa using (transport_error_policy (none : Option (HookResult Unit)) rfl
    (fun _ => (some () : Option Unit)) 0 true ([] : Caches Nat Nat) 0 0 0 false 1
    rfl).1

/-- C4:  The `(Id, topic)` ACL cache is consulted and populated only on the
publish-ACL path: (i) a publish dispatch finding a fresh cache entry (negative
expiry or expiry in the future) uses the cached verdict, issues no HTTP
request and leaves the cache unchanged; (ii) on a miss with a cacheable
verdict the entry is stored (an HTTP request being issued exactly when the
ACL endpoint is configured); (iii) a subscribe dispatch never reads the cache
(its result is independent of the cache contents) and never writes it —
whatever `X-Cache` value the response carries. -/
theorem publish_acl_cache_usage {Rule Id Topic : Type}
    [DecidableEq Id] [DecidableEq Topic]
    (caches : Caches Id Topic) (id : Id) (topic : Topic) (now : Int)
    (aclReqConfigured denyIfError : Bool) (reqRes : Option ResponseResult)
    (d : Bool) (perm : Permission) (qos : Nat)
    (acc : Option (HookResult Rule)) (authInfoStep : Option (ReturnType Rule)) :
    (cacheValidGet caches id topic now = some perm →
      messagePublishCheckAclHook (none : Option (HookResult Rule)) none caches id topic
          now aclReqConfigured denyIfError reqRes d =
        (publishVerdict perm d, caches, false)) ∧
    (∀ tm, cacheValidGet caches id topic now = none →
      aclOutcome aclReqConfigured denyIfError reqRes = (perm, some tm) →
      messagePublishCheckAclHook (none : Option (HookResult Rule)) none caches id topic
          now aclReqConfigured denyIfError reqRes d =
        (publishVerdict perm d,
          cache_set caches id topic perm (if tm < 0 then tm else now + tm),
          aclReqConfigured)) ∧
    ((clientSubscribeCheckAclHook acc authInfoStep caches aclReqConfigured denyIfError
        reqRes qos).2 = caches ∧
      ∀ caches' : Caches Id Topic,
        (clientSubscribeCheckAclHook acc authInfoStep caches aclReqConfigured
            denyIfError reqRes qos).1 =
        (clientSubscribeCheckAclHook acc authInfoStep caches' aclReqConfigured
            denyIfError reqRes qos).1) := by
  refine ⟨?_, ?_, ?_, ?_⟩
  · intro hhit
    simp [messagePublishCheckAclHook, hhit]
  · intro tm hmiss hacl
    simp [messagePublishCheckAclHook, hmiss, hacl]
  · unfold clientSubscribeCheckAclHook
    rcases acc with _ | hr
    · rfl
    · rcases hr with r | r | r
      · rfl
      · dsimp only
        split <;> rfl
      · rfl
  · intro caches'
    unfold clientSubscribeCheckAclHook
    rcases acc with _ | hr
    · rfl
    · rcases hr with r | r | r
      · rfl
      · dsimp only
        split <;> rfl
      · rfl

/-- Witness for the C4 theorem, scenario C: the ACL endpoint answers `allow`
with `X-Cache: 5000` at `now = 0`; the first publish misses the cache, issues
the HTTP request and stores the entry; a second publish at `now = 1000`
(within the TTL) hits the cache, is allowed and issues no HTTP request. -/
theorem publish_acl_cache_usage_witness :
    (messagePublishCheckAclHook (none : Option (HookResult Unit)) none
        ([] : Caches Nat Nat) 0 0 0 true false
        (some ⟨.Allow false, false, some 5000, none, none⟩) false =
      (publishVerdict (.Allow false) false,
        cache_set ([] : Caches Nat Nat) 0 0 (.Allow false)
          (if (5000 : Int) < 0 then 5000 else 0 + 5000),
        true)) ∧
    (messagePublishCheckAclHook (none : Option (HookResult Unit)) none
        (cache_set ([] : Caches Nat Nat) 0 0 (.Allow false)
          (if (5000 : Int) < 0 then 5000 else 0 + 5000)) 0 0 1000 true false
        none false =
      (publishVerdict (.Allow false) false,
        cache_set ([] : Caches Nat Nat) 0 0 (.Allow false)
          (if (5000 : Int) < 0 then 5000 else 0 + 5000),
        false)) :=
  ⟨(publish_acl_cache_usage ([] : Caches Nat Nat) 0 0 0 true false
      (some ⟨.Allow false, false, some 5000, none, none⟩) false (.Allow false) 0
      none none).2.1 5000 rfl rfl,
   (publish_acl_cache_usage
      (cache_set ([] : Caches Nat Nat) 0 0 (.Allow false)
        (if (5000 : Int) < 0 then 5000 else 0 + 5000)) 0 0 1000 true false
      none false (.Allow false) 0 none none).1 (by decide)⟩

/-- Witness for the C5 amended theorem at `su = false`, no cache header,
body `"deny"`. -/
theorem text_verdict_mapping_witness :
    response_result true false none (.textBody "deny") =
      some (ResponseResult.mk' (Permission.fromStr "deny" false) false none) ∧
    Permission.fromStr "allow" false = .Allow false ∧
    Permission.fromStr "deny" false = .Deny ∧
    Permission.fromStr "ignore" false = .Ignore ∧
    ("deny" ∉ (["allow", "deny", "ignore"] : List String) →
      Permission.fromStr "deny" false = .Allow false) :=
  text_verdict_mapping false none "deny"

end AuthHttp

namespace SessionStorage

/-- C8:  For a retained persisted record, the rebuild computes
`session_expiry_interval = fitter.session_expiry_interval(reason?) - (now -
disconnected_at)` with `disconnected_at = disconnect_info.disconnected_at`
when positive and `last_time` otherwise; whenever the result is `≤ 0`, both
the `map-<id>` and `list-<id>` records are deleted (all other keys kept) and
no live session is created; otherwise storage is untouched and the session is
rebuilt with the computed interval. -/
theorem rebuild_expiry_check {D : Type} (fitter : Option D → Nat)
    (idKey : String) (last_time : Int) (dinfo : Option (DisconnectInfo D))
    (now : Int) (db : List String) :
    session_expiry_interval fitter dinfo last_time now =
      toI64 (fitter (dinfo.bind (·.mqtt_disconnect))) -
        (now - (if 0 < (dinfo.map (·.disconnected_at)).getD 0
            then (dinfo.map (·.disconnected_at)).getD 0 else last_time)) ∧
    (session_expiry_interval fitter dinfo last_time now ≤ 0 →
      make_map_stored_key idKey ∉
          (rebuildExpiryStep fitter idKey last_time dinfo now db).1 ∧
      make_list_stored_key idKey ∉
          (rebuildExpiryStep fitter idKey last_time dinfo now db).1 ∧
      (∀ k ∈ db, k ≠ make_map_stored_key idKey → k ≠ make_list_stored_key idKey →
        k ∈ (rebuildExpiryStep fitter idKey last_time dinfo now db).1) ∧
      (rebuildExpiryStep fitter idKey last_time dinfo now db).2 = none) ∧
    (0 < session_expiry_interval fitter dinfo last_time now →
      rebuildExpiryStep fitter idKey last_time dinfo now db =
        (db, some (session_expiry_interval fitter dinfo last_time now))) := by
  refine ⟨?_, ?_, ?_⟩
  · simp only [session_expiry_interval]
    split_ifs <;> omega
  · intro hle
    refine ⟨?_, ?_, ?_, ?_⟩
    · simp [rebuildExpiryStep, hle, List.mem_filter]
    · simp [rebuildExpiryStep, hle, List.mem_filter]
    · intro k hk hmap hlist
      simp [rebuildExpiryStep, hle, List.mem_filter, hk, hmap, hlist]
    · simp [rebuildExpiryStep, hle]
  · intro hpos
    have hn : ¬ session_expiry_interval fitter dinfo last_time now ≤ 0 := by omega
    simp [rebuildExpiryStep, hn]

/-- Witness for the C8 theorem, scenario E: `LAST_TIME = now - 2h`
(milliseconds), the fitter grants a 1 h expiry interval, no disconnect info:
both records are deleted and no session is created. -/
theorem rebuild_expiry_check_witness :
    make_map_stored_key "c1" ∉
        (rebuildExpiryStep (fun _ : Option Unit => 3600000) "c1" 0 none 7200000
          ["map-c1", "list-c1", "map-other"]).1 ∧
    make_list_stored_key "c1" ∉
        (rebuildExpiryStep (fun _ : Option Unit => 3600000) "c1" 0 none 7200000
          ["map-c1", "list-c1", "map-other"]).1 ∧
    (rebuildExpiryStep (fun _ : Option Unit => 3600000) "c1" 0 none 7200000
        ["map-c1", "list-c1", "map-other"]).2 = none :=
  have h := (rebuild_expiry_check (fun _ : Option Unit => 3600000) "c1" 0 none
    7200000 ["map-c1", "list-c1", "map-other"]).2.1 (by decide)
  ⟨h.1, h.2.1, h.2.2.2⟩

end SessionStorage

namespace PluginMgr

/-- C9 counterexample:  The claim states that on any error during a start
event from the Registered state the lifecycle reverts to Registered.  But
`Manager::start` (plugin.rs 378-381) sets `entry.inited = true` as soon as
`init` succeeds, so a subsequent `start` error leaves the entry Inited
(`inited = true, active = false`), not Registered. -/
theorem start_error_leaves_inited :
    (managerStart ⟨false, false, false⟩ (.ok ()) (.error "start failed")).2 =
      ⟨true, false, false⟩ ∧
    (⟨true, false, false⟩ : Entry) ≠ ⟨false, false, false⟩ := by
  exact ⟨rfl, by decide⟩

/-- C9 amended:  A start event on a Registered, non-immutable plugin calls
`init` then `start`.  If `init` errors, the state is unchanged (Registered);
if `init` succeeds and `start` errors, the state becomes Inited
(`inited = true, active = false`); if both succeed, the state becomes Active. -/
theorem manager_start_lifecycle (e : Entry) (h1 : e.inited = false)
    (h2 : e.active = false) (h3 : e.immutable = false)
    (initRes startRes : Except String Unit) :
    (∀ msg, initRes = .error msg →
      managerStart e initRes startRes = (.error msg, e)) ∧
    (∀ msg, initRes = .ok () → startRes = .error msg →
      managerStart e initRes startRes = (.error msg, { e with inited := true })) ∧
    (initRes = .ok () → startRes = .ok () →
      managerStart e initRes startRes =
        (.ok (), { e with inited := true, active := true })) := by
  refine ⟨?_, ?_, ?_⟩
  · intro msg hinit
    subst hinit
    simp [managerStart, h1, h2, h3]
  · intro msg hinit hstart
    subst hinit
    subst hstart
    simp [managerStart, h1, h2, h3]
  · intro hinit hstart
    subst hinit
    subst hstart
    simp [managerStart, h1, h2, h3]

/-- Witness for the C9 amended theorem: from Registered, `init` ok and `start`
failing leaves the entry Inited and surfaces the error. -/
theorem manager_start_lifecycle_witness :
    managerStart ⟨false, false, false⟩ (.ok ()) (.error "boom") =
      (.error "boom", { (⟨false, false, false⟩ : Entry) with inited := true }) :=
  (manager_start_lifecycle ⟨false, false, false⟩ rfl rfl rfl (.ok ())
    (.error "boom")).2.1 "boom" rfl rfl

end PluginMgr

namespace AuthJwt

/-- C10:  For a `ClientAuthenticate` dispatch handled by the JWT auth
handler (accumulator not already a failed auth result): when the configured
token source (`username` when `from = username`, `password` when
`from = password`) is absent from the connect info, the handler halts the
chain (`proceed = false`) with `NotAuthorized`, and the token-decoding
remainder of the branch is never reached. -/
theorem jwt_missing_token {Rule : Type} (acc : Option (AuthHttp.HookResult Rule))
    (hacc : AuthHttp.accAuthFailed acc = false)
    (cfgFrom : JWTFrom) (lossy : List Nat → String) (ci : ConnectInfo)
    (rest : String → AuthHttp.ReturnType Rule)
    (habsent : (cfgFrom = .username ∧ ci.username = none) ∨
      (cfgFrom = .password ∧ ci.password = none)) :
    clientAuthenticateJwt acc (token cfgFrom lossy ci) rest =
      ((false, some (.AuthResult .NotAuthorized)), false) := by
  have htok : token cfgFrom lossy ci = none := by
    rcases habsent with ⟨hf, hn⟩ | ⟨hf, hn⟩ <;> subst hf <;> simp [token, hn]
  rw [htok]
  simp [clientAuthenticateJwt, hacc]

/-- Witness for the C10 theorem: `from = username`, a CONNECT with no username
(password present), empty accumulator. -/
theorem jwt_missing_token_witness :
    clientAuthenticateJwt (none : Option (AuthHttp.HookResult Unit))
        (token .username (fun _ => "") ⟨none, some []⟩)
        (fun _ => (true, none)) =
      ((false, some (.AuthResult .NotAuthorized)), false) :=
  jwt_missing_token none rfl .username (fun _ => "") ⟨none, some []⟩
    (fun _ => (true, none)) (Or.inl ⟨rfl, rfl⟩)

end AuthJwt

namespace Grpc

theorem leBytes_length (w n : Nat) : (leBytes w n).length = w := by
  induction w generalizing n with
  | zero => rfl
  | succ w ih => simp [leBytes, ih]

theorem readN_append (l r : List Nat) : readN l.length (l ++ r) = some (l, r) := by
  induction l with
  | nil => rfl
  | cons b bs ih => simp [readN, ih]

theorem leVal_leBytes (w n : Nat) : leVal (leBytes w n) = n % 256 ^ w := by
  induction w generalizing n with
  | zero => simp [leBytes, leVal, Nat.mod_one]
  | succ w ih =>
    rw [leBytes, leVal, ih, pow_succ, mul_comm (256 ^ w) 256, Nat.mod_mul]

theorem roundTrips_u64c : RoundTrips u64c := by
  intro n hn rest
  have h := readN_append (leBytes 8 n) rest
  rw [leBytes_length] at h
  have h64 : (256 : Nat) ^ 8 = 2 ^ 64 := by norm_num
  simp only [u64c, h, Option.map_some', leVal_leBytes, h64, Nat.mod_eq_of_lt hn]

theorem u32c_valid_of_lt {k : Nat} (h : k < 2 ^ 32) : u32c.valid k := h

theorem roundTrips_u32c : RoundTrips u32c := by
  intro n hn rest
  have h := readN_append (leBytes 4 n) rest
  rw [leBytes_length] at h
  have h32 : (256 : Nat) ^ 4 = 2 ^ 32 := by norm_num
  simp only [u32c, h, Option.map_some', leVal_leBytes, h32, Nat.mod_eq_of_lt hn]

theorem roundTrips_boolc : RoundTrips boolc := by
  intro b _ rest
  cases b <;> simp [boolc, boolDec]

theorem roundTrips_bytesc : RoundTrips bytesc := by
  intro l hl rest
  have h8 := readN_append (leBytes 8 l.length) (l ++ rest)
  rw [leBytes_length] at h8
  have h64 : (256 : Nat) ^ 8 = 2 ^ 64 := by norm_num
  have hlen : l.length < 2 ^ 64 := hl
  simp only [bytesc, List.append_assoc, h8, Option.some_bind, leVal_leBytes, h64,
    Nat.mod_eq_of_lt hlen, readN_append]

/-- A round-tripping codec decodes its bare encoding with empty remainder. -/
theorem dec_enc_nil {α : Type} {c : Codec α} (h : RoundTrips c) (a : α)
    (ha : c.valid a) : c.dec (c.enc a) = some (a, []) := by
  simpa using h a ha []

theorem roundTrips_optionc {α : Type} {c : Codec α} (h : RoundTrips c) :
    RoundTrips (optionc c) := by
  intro o ho rest
  cases o with
  | none => simp [optionc, optionDec]
  | some a =>
    have ha : c.valid a := ho
    simp only [optionc, List.cons_append, optionDec, h a ha rest, Option.map_some']

theorem roundTrips_pairc {α β : Type} {ca : Codec α} {cb : Codec β}
    (ha : RoundTrips ca) (hb : RoundTrips cb) : RoundTrips (pairc ca cb) := by
  intro p hp rest
  obtain ⟨a, b⟩ := p
  have ha1 : ca.valid a := hp.1
  have hb1 : cb.valid b := hp.2
  simp only [pairc, List.append_assoc, ha a ha1, Option.some_bind, hb b hb1,
    Option.map_some']

theorem decListN_enc {α : Type} {c : Codec α} (h : RoundTrips c) :
    ∀ (l : List α), (∀ a ∈ l, c.valid a) → ∀ rest,
      decListN c l.length ((l.map c.enc).flatten ++ rest) = some (l, rest) := by
  intro l
  induction l with
  | nil =>
    intro _ rest
    simp [decListN]
  | cons a l ih =>
    intro hv rest
    simp only [List.map_cons, List.flatten_cons, List.length_cons, List.append_assoc,
      decListN, h a (hv a (by simp)), Option.some_bind,
      ih (fun x hx => hv x (by simp [hx])) rest, Option.map_some']

theorem roundTrips_listc {α : Type} {c : Codec α} (h : RoundTrips c) :
    RoundTrips (listc c) := by
  intro l hl rest
  have h8 := readN_append (leBytes 8 l.length) ((l.map c.enc).flatten ++ rest)
  rw [leBytes_length] at h8
  have h64 : (256 : Nat) ^ 8 = 2 ^ 64 := by norm_num
  have hlen : l.length < 2 ^ 64 := hl.1
  simp only [listc, List.append_assoc, h8, Option.some_bind, leVal_leBytes, h64,
    Nat.mod_eq_of_lt hlen, decListN_enc h l hl.2 rest]

/-- C7:  For every cluster `Message` variant `m` (with fields in their
codecs' validity domains) and every message-type code `t < 2^64`,
`Message::decode(Message::encode(m, t))` succeeds and yields exactly `(t, m)`;
likewise `MessageReply::decode(MessageReply::encode(r))` yields `r` for every
reply variant `r`.  The payload codecs are abstract round-tripping codecs
(bincode's guarantee for the derived instances in `rmqtt::types`). -/
theorem message_roundtrip (T : GrpcTypes) (C : GrpcCodecs T) (hC : C.Good) :
    (∀ typ : Nat, typ < 2 ^ 64 → ∀ m : GMessage T, GMessage.Valid C m →
      GMessage.decode C (GMessage.encode C m typ) = some (typ, m)) ∧
    (∀ r : GReply T, GReply.Valid C r →
      GReply.decode C (GReply.encode C r) = some r) := by
  constructor
  · intro typ htyp m hm
    cases m with
    | Forwards f p =>
      obtain ⟨hf, hp⟩ := hm
      simp only [GMessage.encode, GMessage.decode, GMessage.decodeBody,
        List.append_assoc, roundTrips_u64c typ htyp, roundTrips_u32c 0 (u32c_valid_of_lt (by norm_num)),
        hC.hFrm f hf, dec_enc_nil hC.hPublish p hp]
    | ForwardsTo f p sr =>
      obtain ⟨hf, hp, hsr⟩ := hm
      simp only [GMessage.encode, GMessage.decode, GMessage.decodeBody,
        List.append_assoc, roundTrips_u64c typ htyp, roundTrips_u32c 1 (u32c_valid_of_lt (by norm_num)),
        hC.hFrm f hf, hC.hPublish p hp, dec_enc_nil hC.hSubRelations sr hsr]
    | Kick i cs cl ia =>
      obtain ⟨hi, hcs, hcl, hia⟩ := hm
      simp only [GMessage.encode, GMessage.decode, GMessage.decodeBody,
        List.append_assoc, roundTrips_u64c typ htyp, roundTrips_u32c 2 (u32c_valid_of_lt (by norm_num)),
        hC.hId i hi, hC.hCleanStart cs hcs, hC.hClearSubscriptions cl hcl,
        dec_enc_nil hC.hIsAdmin ia hia]
    | GetRetains tf =>
      simp only [GMessage.encode, GMessage.decode, GMessage.decodeBody,
        List.append_assoc, roundTrips_u64c typ htyp, roundTrips_u32c 3 (u32c_valid_of_lt (by norm_num)),
        dec_enc_nil hC.hTopicFilter tf hm]
    | SubscriptionsSearch sp =>
      simp only [GMessage.encode, GMessage.decode, GMessage.decodeBody,
        List.append_assoc, roundTrips_u64c typ htyp, roundTrips_u32c 4 (u32c_valid_of_lt (by norm_num)),
        dec_enc_nil hC.hSubsSearchParams sp hm]
    | SubscriptionsGet cid =>
      simp only [GMessage.encode, GMessage.decode, GMessage.decodeBody,
        List.append_assoc, roundTrips_u64c typ htyp, roundTrips_u32c 5 (u32c_valid_of_lt (by norm_num)),
        dec_enc_nil hC.hClientId cid hm]
    | RoutesGet n =>
      simp only [GMessage.encode, GMessage.decode, GMessage.decodeBody,
        List.append_assoc, roundTrips_u64c typ htyp, roundTrips_u32c 6 (u32c_valid_of_lt (by norm_num)),
        dec_enc_nil roundTrips_u64c n hm]
    | RoutesGetBy tf =>
      simp only [GMessage.encode, GMessage.decode, GMessage.decodeBody,
        List.append_assoc, roundTrips_u64c typ htyp, roundTrips_u32c 7 (u32c_valid_of_lt (by norm_num)),
        dec_enc_nil hC.hTopicFilter tf hm]
    | NumberOfClients =>
      simp only [GMessage.encode, GMessage.decode, GMessage.decodeBody,
        roundTrips_u64c typ htyp, dec_enc_nil roundTrips_u32c 8 (u32c_valid_of_lt (by norm_num))]
    | NumberOfSessions =>
      simp only [GMessage.encode, GMessage.decode, GMessage.decodeBody,
        roundTrips_u64c typ htyp, dec_enc_nil roundTrips_u32c 9 (u32c_valid_of_lt (by norm_num))]
    | Online cid =>
      simp only [GMessage.encode, GMessage.decode, GMessage.decodeBody,
        List.append_assoc, roundTrips_u64c typ htyp, roundTrips_u32c 10 (u32c_valid_of_lt (by norm_num)),
        dec_enc_nil hC.hClientId cid hm]
    | SessionStatus cid =>
      simp only [GMessage.encode, GMessage.decode, GMessage.decodeBody,
        List.append_assoc, roundTrips_u64c typ htyp, roundTrips_u32c 11 (u32c_valid_of_lt (by norm_num)),
        dec_enc_nil hC.hClientId cid hm]
    | MessageGet cid tf g =>
      obtain ⟨hcid, htf, hg⟩ := hm
      simp only [GMessage.encode, GMessage.decode, GMessage.decodeBody,
        List.append_assoc, roundTrips_u64c typ htyp, roundTrips_u32c 12 (u32c_valid_of_lt (by norm_num)),
        hC.hClientId cid hcid, hC.hTopicFilter tf htf,
        dec_enc_nil (roundTrips_optionc hC.hSharedGroup) g hg]
    | Data d =>
      simp only [GMessage.encode, GMessage.decode, GMessage.decodeBody,
        List.append_assoc, roundTrips_u64c typ htyp, roundTrips_u32c 13 (u32c_valid_of_lt (by norm_num)),
        dec_enc_nil roundTrips_bytesc d hm]
  · intro r hr
    cases r with
    | Success =>
      simp only [GReply.encode, GReply.decode, GReply.decodeBody,
        dec_enc_nil roundTrips_u32c 0 (u32c_valid_of_lt (by norm_num))]
    | Forwards m c =>
      obtain ⟨hm1, hc1⟩ := hr
      simp only [GReply.encode, GReply.decode, GReply.decodeBody, List.append_assoc,
        roundTrips_u32c 1 (u32c_valid_of_lt (by norm_num)), hC.hSubRelationsMap m hm1,
        dec_enc_nil hC.hSubscriptionClientIds c hc1]
    | Error s =>
      simp only [GReply.encode, GReply.decode, GReply.decodeBody, List.append_assoc,
        roundTrips_u32c 2 (u32c_valid_of_lt (by norm_num)), dec_enc_nil roundTrips_bytesc s hr]
    | Kick o =>
      simp only [GReply.encode, GReply.decode, GReply.decodeBody, List.append_assoc,
        roundTrips_u32c 3 (u32c_valid_of_lt (by norm_num)), dec_enc_nil hC.hOfflineSession o hr]
    | GetRetains xs =>
      simp only [GReply.encode, GReply.decode, GReply.decodeBody, List.append_assoc,
        roundTrips_u32c 4 (u32c_valid_of_lt (by norm_num)),
        dec_enc_nil (roundTrips_listc (roundTrips_pairc hC.hTopicName hC.hRetain)) xs hr]
    | SubscriptionsSearch xs =>
      simp only [GReply.encode, GReply.decode, GReply.decodeBody, List.append_assoc,
        roundTrips_u32c 5 (u32c_valid_of_lt (by norm_num)),
        dec_enc_nil (roundTrips_listc hC.hSubsSearchResult) xs hr]
    | SubscriptionsGet xs =>
      simp only [GReply.encode, GReply.decode, GReply.decodeBody, List.append_assoc,
        roundTrips_u32c 6 (u32c_valid_of_lt (by norm_num)),
        dec_enc_nil (roundTrips_optionc (roundTrips_listc hC.hSubsSearchResult)) xs hr]
    | RoutesGet xs =>
      simp only [GReply.encode, GReply.decode, GReply.decodeBody, List.append_assoc,
        roundTrips_u32c 7 (u32c_valid_of_lt (by norm_num)),
        dec_enc_nil (roundTrips_listc hC.hRoute) xs hr]
    | RoutesGetBy xs =>
      simp only [GReply.encode, GReply.decode, GReply.decodeBody, List.append_assoc,
        roundTrips_u32c 8 (u32c_valid_of_lt (by norm_num)),
        dec_enc_nil (roundTrips_listc hC.hRoute) xs hr]
    | NumberOfClients n =>
      simp only [GReply.encode, GReply.decode, GReply.decodeBody, List.append_assoc,
        roundTrips_u32c 9 (u32c_valid_of_lt (by norm_num)), dec_enc_nil roundTrips_u64c n hr]
    | NumberOfSessions n =>
      simp only [GReply.encode, GReply.decode, GReply.decodeBody, List.append_assoc,
        roundTrips_u32c 10 (u32c_valid_of_lt (by norm_num)), dec_enc_nil roundTrips_u64c n hr]
    | Online b =>
      simp only [GReply.encode, GReply.decode, GReply.decodeBody, List.append_assoc,
        roundTrips_u32c 11 (u32c_valid_of_lt (by norm_num)), dec_enc_nil roundTrips_boolc b trivial]
    | SessionStatus s =>
      simp only [GReply.encode, GReply.decode, GReply.decodeBody, List.append_assoc,
        roundTrips_u32c 12 (u32c_valid_of_lt (by norm_num)),
        dec_enc_nil (roundTrips_optionc hC.hSessionStatus) s hr]
    | MessageGet xs =>
      simp only [GReply.encode, GReply.decode, GReply.decodeBody, List.append_assoc,
        roundTrips_u32c 13 (u32c_valid_of_lt (by norm_num)),
        dec_enc_nil (roundTrips_listc (roundTrips_pairc hC.hMsgID
          (roundTrips_pairc hC.hFrm hC.hPublish))) xs hr]
    | Data d =>
      simp only [GReply.encode, GReply.decode, GReply.decodeBody, List.append_assoc,
        roundTrips_u32c 14 (u32c_valid_of_lt (by norm_num)), dec_enc_nil roundTrips_bytesc d hr]

/-- The trivial codec round-trips. -/
theorem roundTrips_unitc : RoundTrips unitc := by
  intro a _ rest
  cases a
  rfl

/-- The `unitCodecs` satisfies the round-trip assumption. -/
theorem unitCodecs_good : unitCodecs.Good :=
  ⟨roundTrips_unitc, roundTrips_unitc, roundTrips_unitc, roundTrips_unitc,
   roundTrips_unitc, roundTrips_unitc, roundTrips_unitc, roundTrips_unitc,
   roundTrips_unitc, roundTrips_unitc, roundTrips_unitc, roundTrips_unitc,
   roundTrips_unitc, roundTrips_unitc, roundTrips_unitc, roundTrips_unitc,
   roundTrips_unitc, roundTrips_unitc, roundTrips_unitc, roundTrips_unitc⟩

/-- Witness for the C7 theorem at the all-`Unit` instantiation: the
`NumberOfClients` query with type code `22` and the `NumberOfClients 7` reply
both round-trip. -/
theorem message_roundtrip_witness :
    GMessage.decode unitCodecs (GMessage.encode unitCodecs .NumberOfClients 22) =
      some (22, .NumberOfClients) ∧
    GReply.decode unitCodecs (GReply.encode unitCodecs (.NumberOfClients 7)) =
      some (.NumberOfClients 7) :=
  ⟨(message_roundtrip unitTypes unitCodecs unitCodecs_good).1 22 (by norm_num)
      .NumberOfClients trivial,
   (message_roundtrip unitTypes unitCodecs unitCodecs_good).2 (.NumberOfClients 7)
      (show (7 : Nat) < 2 ^ 64 by norm_num)⟩

end Grpc
